import Mathlib

/-!
Shallow embedding of the conversational-orchestration core of the
MagicMirrorPro voice-assistant repository, together with proofs of the
specification claims about it.

Each definition is translated from the Python source file named in its
doc comment.  Machine-level details that the claims do not touch
(pygame, sounddevice, network sockets) are abstracted into explicit
parameters; control flow, constants and string literals follow the
source line by line.
-/

/-- `AppState` from `core/state.py`.  The enumeration as written in the
source has ten members, including `TRANSCRIBING`. -/
inductive AppState where
  | IDLE
  | CALLING
  | LISTENING
  | TRANSCRIBING
  | THINKING
  | ACTING
  | CHATTING
  | SPEAKING
  | NEWS
  | MUSIC
deriving DecidableEq, Repr

/-- The nine state values named by the specification (§3 "State"). -/
def specNineStates : List AppState :=
  [AppState.IDLE, AppState.LISTENING, AppState.THINKING, AppState.ACTING,
   AppState.CHATTING, AppState.SPEAKING, AppState.MUSIC, AppState.NEWS,
   AppState.CALLING]

/-- Every value that occurs on the right-hand side of an assignment
`self.state = AppState.X` anywhere in `core/app.py` (the only module
that writes the state; `webrtc_integration.py` only calls back into
`core/app.py`).  Collected from lines 38, 162, 173, 246, 279, 284, 317,
348, 402, 465, 487, 489, 502, 511, 515, 542, 568, 576, 598, 618, 626,
636, 650, 660, 670, 689, 708, 863, 868, 881, 885, 908, 938, 943, 954
and 958 of `core/app.py`.  (Lines 306 and 319 assign `self.state` to
itself and introduce no new value.) -/
def assignedStates : List AppState :=
  [AppState.IDLE, AppState.LISTENING, AppState.THINKING, AppState.ACTING,
   AppState.CHATTING, AppState.SPEAKING, AppState.MUSIC, AppState.NEWS,
   AppState.CALLING]

/-- The state values the application can hold: the initial value
`AppState.IDLE` (`core/app.py` line 38) followed by any sequence of the
assignments collected in `assignedStates`. -/
inductive StateReachable : AppState → Prop where
  | init : StateReachable AppState.IDLE
  | assign {s t : AppState} : StateReachable s → t ∈ assignedStates →
      StateReachable t

/-- Playback rate used by `AudioPlayer.play` in `io_audio/player.py`:
`playback_rate = samplerate * 0.7`. -/
def playbackRate (samplerate : ℚ) : ℚ :=
  samplerate * (7 / 10)

/-- Playback rate used by `MusicAction._play_local_file_background` and
`MusicAction._play_track_background` in `actions/music.py`:
`playback_rate = samplerate * 0.8`. -/
def musicPlaybackRate (samplerate : ℚ) : ℚ :=
  samplerate * (8 / 10)

/-- Playback rate of news-headline playback.
`AssistantApp._news_playing_task` (`core/app.py` line 832) plays the
slot file through `self.player.play(...)`, i.e. through
`AudioPlayer.play`, so it inherits that player's rate. -/
def newsPlaybackRate (samplerate : ℚ) : ℚ :=
  playbackRate samplerate

/-- The apostrophe character, used in the source regexes `what'?s?` and
`today'?s?` of `nlu/pattern_nlu.py`. -/
def apostrophe : Char := Char.ofNat 39

/-- Python `\w` over the ASCII inputs the router receives: letters,
digits and underscore.  Used to decide `\b` word boundaries. -/
def isWordChar (c : Char) : Bool :=
  c.isAlphanum || c = '_'

/-- Character classes occurring in the regexes of
`nlu/pattern_nlu.py`: `\s` and `\d`. -/
inductive CharCls where
  | ws
  | digit
deriving DecidableEq, Repr

/-- Membership in a character class (`\s` = ASCII whitespace as Python
matches it on these inputs, `\d` = decimal digit). -/
def clsMatch : CharCls → Char → Bool
  | CharCls.ws, c =>
      c = ' ' || c = '\t' || c = '\n' || c = '\r' ||
      c = Char.ofNat 11 || c = Char.ofNat 12
  | CharCls.digit, c => c.isDigit

/-- Abstract syntax of the regular expressions used by
`PatternNLU._init_patterns` and `PatternNLU._extract_params`:
literals, `\s+` / `\d+`, optional groups `(...)?`, alternation
(needed for `(news|条|个)`), and the word boundary `\b`. -/
inductive Pat where
  | eps
  | lit (c : Char)
  | cls (k : CharCls)
  | plus (k : CharCls)
  | seq (p q : Pat)
  | opt (p : Pat)
  | alt (p q : Pat)
  | wb
deriving DecidableEq, Repr

/-- All ways to extend a match by zero or more characters of class `k`;
each outcome is the character preceding the rest of the input (needed
for later `\b` tests) paired with the remaining input. -/
def starRun (k : CharCls) (prev : Option Char) :
    List Char → List (Option Char × List Char)
  | [] => [(prev, [])]
  | c :: rest =>
      (prev, c :: rest) ::
        (if clsMatch k c then starRun k (some c) rest else [])

/-- Backtracking matcher: all ways for `p` to match a prefix of `s`,
where `prev` is the character immediately before `s` in the full text
(`none` at the start of the text).  Returns the list of possible
(last consumed character, remaining input) pairs. -/
def mrun : Pat → Option Char → List Char → List (Option Char × List Char)
  | Pat.eps, prev, s => [(prev, s)]
  | Pat.lit c, _, s =>
      match s with
      | [] => []
      | c' :: rest => if c' = c then [(some c', rest)] else []
  | Pat.cls k, _, s =>
      match s with
      | [] => []
      | c' :: rest => if clsMatch k c' then [(some c', rest)] else []
  | Pat.plus k, _, s =>
      match s with
      | [] => []
      | c' :: rest => if clsMatch k c' then starRun k (some c') rest else []
  | Pat.seq p q, prev, s =>
      (mrun p prev s).flatMap (fun pr => mrun q pr.1 pr.2)
  | Pat.opt p, prev, s => (prev, s) :: mrun p prev s
  | Pat.alt p q, prev, s => mrun p prev s ++ mrun q prev s
  | Pat.wb, prev, s =>
      let before := match prev with
        | none => false
        | some c => isWordChar c
      let after := match s with
        | [] => false
        | c :: _ => isWordChar c
      if before ≠ after then [(prev, s)] else []

/-- `re.search` applied from position `i` onward: does `p` match
starting at some position of `s` (including the end-of-string
position), `prev` being the character before `s`? -/
def searchFrom (p : Pat) (prev : Option Char) : List Char → Bool
  | [] => !(mrun p prev []).isEmpty
  | c :: rest =>
      !(mrun p prev (c :: rest)).isEmpty || searchFrom p (some c) rest

/-- `re.search(p, s)` as a Boolean: a match exists somewhere in `s`. -/
def reSearch (p : Pat) (s : String) : Bool :=
  searchFrom p none s.data

/-- A sequence of patterns. -/
def pseq (ps : List Pat) : Pat :=
  ps.foldr Pat.seq Pat.eps

/-- A literal word, character by character. -/
def plit (s : String) : Pat :=
  pseq (s.data.map Pat.lit)

/-- `\s+`. -/
def pws : Pat := Pat.plus CharCls.ws

/-- `'?s?` — the optional apostrophe-then-s tail of `what'?s?` and
`today'?s?`. -/
def poptApos : Pat :=
  Pat.seq (Pat.opt (Pat.lit apostrophe)) (Pat.opt (Pat.lit 's'))

/-- The ordered list of regular expressions registered for the `news`
action in `PatternNLU._init_patterns` (`nlu/pattern_nlu.py`), one
`Pat` per source regex, in source order. -/
def newsPatterns : List Pat :=
  [ pseq [Pat.wb, plit "news", Pat.wb],
    pseq [Pat.wb, plit "newspaper", Pat.wb],
    pseq [Pat.wb, plit "headlines", Pat.wb],
    pseq [Pat.wb, plit "headline", Pat.wb],
    pseq [plit "show", pws, plit "me", pws,
          Pat.opt (pseq [plit "the", pws]), plit "news"],
    pseq [plit "what", poptApos, pws,
          Pat.opt (pseq [plit "the", pws]), plit "news"],
    pseq [plit "tell", pws, plit "me", pws,
          Pat.opt (pseq [plit "the", pws]), plit "news"],
    pseq [plit "get", pws, Pat.opt (pseq [plit "me", pws]),
          Pat.opt (pseq [plit "the", pws]), plit "news"],
    pseq [plit "fetch", pws, Pat.opt (pseq [plit "me", pws]),
          Pat.opt (pseq [plit "the", pws]), plit "news"],
    pseq [plit "read", pws, Pat.opt (pseq [plit "me", pws]),
          Pat.opt (pseq [plit "the", pws]), plit "news"],
    pseq [plit "latest", pws, plit "news"],
    pseq [plit "current", pws, plit "news"],
    pseq [plit "today", poptApos, pws, plit "news"],
    pseq [plit "news", pws, plit "of", pws, plit "the", pws, plit "day"],
    pseq [plit "what", poptApos, pws, plit "happening"],
    pseq [plit "what", poptApos, pws, plit "going", pws, plit "on"] ]

/-- `Intent` from `nlu/models.py` (the fields the orchestration claims
read; `action_params` holds the extracted `count`, the only parameter
`PatternNLU._extract_params` produces). -/
structure Intent where
  intent_type : String
  action_name : Option String := none
  action_params : List (String × Nat) := []
  reply_text : String := ""
  confidence : ℚ := 0
deriving DecidableEq, Repr

/-- Greedy run of decimal digits (`\d+` in front of a non-digit
continuation never backtracks). -/
def takeDigits : List Char → List Char × List Char
  | [] => ([], [])
  | c :: rest =>
      if c.isDigit then
        let (ds, tl) := takeDigits rest
        (c :: ds, tl)
      else ([], c :: rest)

/-- Drop leading `\s*`. -/
def dropWs : List Char → List Char
  | [] => []
  | c :: rest => if clsMatch CharCls.ws c then dropWs rest else c :: rest

/-- Digit run to a number. -/
def digitsToNat (ds : List Char) : Nat :=
  ds.foldl (fun n c => 10 * n + (c.toNat - 48)) 0

/-- Python `str.lower()` character by character (`Char.toLower` agrees
with Python on the ASCII texts the router receives). -/
def pyLower (s : List Char) : List Char :=
  s.map Char.toLower

/-- Python `str.strip()`: whitespace removed from both ends. -/
def pyStrip (s : List Char) : List Char :=
  (dropWs (dropWs s).reverse).reverse

/-- The first (leftmost) match of `(\d+)\s*(news|条|个)` in the text,
returning capture group 1 as a number — the count extraction of
`PatternNLU._extract_params` for the `news` action. -/
def findCount : List Char → Option Nat
  | [] => none
  | c :: rest =>
      if c.isDigit then
        let (ds, tl) := takeDigits (c :: rest)
        let tl' := dropWs tl
        if "news".data.isPrefixOf tl' || "条".data.isPrefixOf tl' ||
            "个".data.isPrefixOf tl' then
          some (digitsToNat ds)
        else
          findCount rest
      else
        findCount rest

/-- `PatternNLU._extract_params` (`nlu/pattern_nlu.py`): for the `news`
action, extract an optional count from the lowercased text. -/
def extractParams (actionName : String) (text : String) : List (String × Nat) :=
  if actionName = "news" then
    match findCount (pyLower text.data) with
    | some n => [("count", n)]
    | none => []
  else
    []

/-- `PatternNLU._generate_reply` (`nlu/pattern_nlu.py`). -/
def generateReply (actionName : String) : String :=
  if actionName = "news" then "正在获取最新新闻..." else "正在处理..."

/-- `PatternNLU._create_intent` (`nlu/pattern_nlu.py`). -/
def createIntent (actionName : String) (originalText : String) : Intent :=
  { intent_type := "predefined_action",
    action_name := some actionName,
    action_params := extractParams actionName originalText,
    reply_text := generateReply actionName,
    confidence := 9 / 10 }

/-- `PatternNLU.recognize` (`nlu/pattern_nlu.py`): empty text yields
nothing; otherwise the lowercased, stripped text is matched against
`newsPatterns` in order and the first match produces the predefined
`news` intent. -/
def recognize (text : String) : Option Intent :=
  if text = "" then none
  else
    match newsPatterns.find?
        (fun p => searchFrom p none (pyStrip (pyLower text.data))) with
    | some _ => some (createIntent "news" text)
    | none => none

/-- `LLMResponse` from `nlu/models.py` (fields the claims read). -/
structure LLMResponse where
  text : String
  tokens_used : Nat := 0
deriving DecidableEq, Repr

/-- The HTTP reply `requests.post` hands back to `LLMClient.ask`
(`nlu/llm_client.py`): the status code, and the parsed
`choices[0].message.content` / `usage.total_tokens` when the body is
JSON of the expected shape (`none` when parsing raises
`KeyError`/`IndexError`). -/
structure HttpReply where
  status_code : Nat
  content : Option (String × Nat)
deriving DecidableEq, Repr

/-- `LLMClient.ask` (`nlu/llm_client.py`): a non-200 status returns the
fixed error text; a 200 with an unparsable body returns the same error
text; otherwise the model's content is returned. -/
def llmAsk (resp : HttpReply) : LLMResponse :=
  if resp.status_code ≠ 200 then
    { text := "Error: Could not parse AI response.", tokens_used := 0 }
  else
    match resp.content with
    | some ct => { text := ct.1, tokens_used := ct.2 }
    | none => { text := "Error: Could not parse AI response.", tokens_used := 0 }

/-- Outcome of the `self.llm_client.ask(user_text)` call as seen by
`AssistantApp._thinking_task`: either `requests.post` returned an HTTP
reply, or the call raised an exception (network failure etc.). -/
inductive AskOutcome where
  | reply (r : HttpReply)
  | raised
deriving DecidableEq, Repr

/-- `AssistantApp._thinking_task` (`core/app.py`): pattern NLU first;
a predefined intent goes to `ACTING`, otherwise the LLM client is
asked and the (possibly fallback) reply becomes a chat intent heading
to `CHATTING`. -/
def thinkingTask (userText : String) (llm : AskOutcome) : Intent × AppState :=
  match recognize userText with
  | some patternIntent =>
      (patternIntent,
        if patternIntent.intent_type = "predefined_action" then
          AppState.ACTING
        else
          AppState.CHATTING)
  | none =>
      match llm with
      | AskOutcome.reply r =>
          ({ intent_type := "chat", reply_text := (llmAsk r).text,
             confidence := 1 / 2 },
           AppState.CHATTING)
      | AskOutcome.raised =>
          ({ intent_type := "chat",
             reply_text := "Sorry, I don't understand your meaning.",
             confidence := 1 / 2 },
           AppState.CHATTING)

/-- The two actions `ActionRegistry._register_default_actions`
(`actions/registry.py`) instantiates: `WeatherAction()` (name
`"weather"`, `actions/weather.py`) and `NewsAction()` (name `"news"`,
`actions/news.py`). -/
inductive RegisteredAction where
  | weather
  | news
deriving DecidableEq, Repr

/-- `BaseAction.name` of each registered action. -/
def registeredName : RegisteredAction → String
  | RegisteredAction.weather => "weather"
  | RegisteredAction.news => "news"

/-- The registry dictionary after `_register_default_actions`, keyed by
action name in registration order. -/
def defaultActions : List (String × RegisteredAction) :=
  [("weather", RegisteredAction.weather), ("news", RegisteredAction.news)]

/-- `ActionRegistry.get_action` (`actions/registry.py`): dictionary
lookup, `none` when the name is unregistered. -/
def getAction (name : String) : Option RegisteredAction :=
  (defaultActions.find? (fun p => p.1 = name)).map Prod.snd

/-- Where `AssistantApp._handle_acting` (`core/app.py`) ends up for a
given intent, with the branch-specific data the claims mention. -/
inductive ActingResult where
  | noIntent
  | musicBranch
  | newsBranch
  | otherAction (name : String)
  | unknownAction (replyText : String)
deriving DecidableEq, Repr

/-- `AssistantApp._handle_acting` (`core/app.py`): a missing intent
aborts to `IDLE`; a registered action dispatches to the music branch,
the news branch or the generic preset-reply branch by name; an
unregistered name gets the fixed apology and goes to `SPEAKING`. -/
def handleActing (intent : Option Intent) : ActingResult × AppState :=
  match intent with
  | none => (ActingResult.noIntent, AppState.IDLE)
  | some i =>
      let key := match i.action_name with
        | some n => getAction n
        | none => none
      match key with
      | some act =>
          if i.action_name = some "music" then
            (ActingResult.musicBranch, AppState.MUSIC)
          else if i.action_name = some "news" then
            (ActingResult.newsBranch, AppState.SPEAKING)
          else
            (ActingResult.otherAction (registeredName act), AppState.SPEAKING)
      | none =>
          (ActingResult.unknownAction "Sorry, I don't understand this action",
           AppState.SPEAKING)

/-- The data a background task of the NEWS state machine of
`AssistantApp._handle_news` (`core/app.py`) captures when it starts:
`_news_tts_task` writes TTS audio into a file slot (the slot it
computed as `1 - self._news_tts_file_index` on entry, line 788), and
`_news_playing_task` plays the file of a slot.  `false` is slot 0
(`news_tts_0.wav`), `true` is slot 1 (`news_tts_1.wav`). -/
inductive NewsTask where
  | ttsWriting (slot : Bool)
  | playingSlot (slot : Bool)
deriving DecidableEq, Repr

/-- The news-playback state of `AssistantApp`: `fileIndex` is
`_news_tts_file_index`, `ready` records the slot of
`_current_news_tts_result` when one is pending, `generating` is
`_news_tts_generating`, `handle` is the `_background_task` slot (the
id of the thread it refers to, if any), `live` lists the running news
threads together with the slot each captured at start, and `nextId`
supplies fresh thread ids.  `live` is a list and not a single slot
because the Enter-key stop abandons a running thread without stopping
it: `_stop_background_tasks` (`core/app.py` lines 981-997) only nulls
the handle and joins nothing, and `_news_tts_task` checks no stop
flag, so a later news session can run a second thread beside the
orphaned one. -/
structure NewsState where
  fileIndex : Bool
  ready : Option Bool
  generating : Bool
  handle : Option Nat
  live : List (Nat × NewsTask)
  nextId : Nat
deriving DecidableEq, Repr

/-- `self._background_task and self._background_task.is_alive()`: the
handle refers to a thread that is still running. -/
def handleBusyB (s : NewsState) : Bool :=
  match s.handle with
  | none => false
  | some i => s.live.any (fun e => e.1 == i)

/-- Thread `i` terminates: it leaves the set of live threads. -/
def eraseId (i : Nat) (l : List (Nat × NewsTask)) : List (Nat × NewsTask) :=
  l.filter (fun e => e.1 != i)

/-- Initial news state: `_news_tts_file_index = 0`, no pending TTS, no
generation in progress, no background task, no running news thread
(`core/app.py` lines 95-103). -/
def newsInit : NewsState :=
  { fileIndex := false, ready := none, generating := false,
    handle := none, live := [], nextId := 0 }

/-- The task-level transitions of the news subsystem, one per code
path of `core/app.py`:

* `spawnTTS`: `_handle_news` reaches the generation branch (no pending
  TTS, not generating) and finds the handle dead or empty, sets
  `_news_tts_generating = True` and spawns `_news_tts_task`; the new
  thread captures target slot `1 - _news_tts_file_index` (lines
  770-782 and 787-789);
* `markGenerating`: the same branch with a live handle sets
  `_news_tts_generating = True` but spawns nothing (line 774 runs
  before the guarded spawn of lines 775-782);
* `finishTTS`: a running `_news_tts_task` — whether or not the handle
  still refers to it — copies the synthesized file into its captured
  slot, publishes it as `_current_news_tts_result`, sets
  `_news_tts_file_index` to that slot, clears the generating flag and
  unconditionally nulls `_background_task` (lines 800-813);
* `finishTTSFail`: the TTS attempt raises; the flag is cleared and
  the handle nulled, nothing is published (lines 814-818);
* `finishTTSMissing`: the synthesized file is missing; the flag is
  cleared but the handle is left as it is (lines 795-798 return
  without a `finally`);
* `spawnPlay`: `_handle_news` sees a pending `_current_news_tts_result`
  and a dead or empty handle and spawns `_news_playing_task` for that
  file (lines 757-768 and 820-832);
* `finishPlay`: a running `_news_playing_task` ends (or fails), clears
  `_current_news_tts_result`, advances `_news_index` and nulls the
  handle (lines 834-848). -/
inductive NewsTaskStep : NewsState → NewsState → Prop where
  | spawnTTS {s : NewsState} :
      handleBusyB s = false → s.ready = none → s.generating = false →
      NewsTaskStep s { s with
        generating := true,
        handle := some s.nextId,
        live := (s.nextId, NewsTask.ttsWriting (!s.fileIndex)) :: s.live,
        nextId := s.nextId + 1 }
  | markGenerating {s : NewsState} :
      handleBusyB s = true → s.ready = none → s.generating = false →
      NewsTaskStep s { s with generating := true }
  | finishTTS {s : NewsState} {i : Nat} {w : Bool} :
      (i, NewsTask.ttsWriting w) ∈ s.live →
      NewsTaskStep s { s with
        fileIndex := w, ready := some w, generating := false,
        handle := none, live := eraseId i s.live }
  | finishTTSFail {s : NewsState} {i : Nat} {w : Bool} :
      (i, NewsTask.ttsWriting w) ∈ s.live →
      NewsTaskStep s { s with
        generating := false, handle := none, live := eraseId i s.live }
  | finishTTSMissing {s : NewsState} {i : Nat} {w : Bool} :
      (i, NewsTask.ttsWriting w) ∈ s.live →
      NewsTaskStep s { s with
        generating := false, live := eraseId i s.live }
  | spawnPlay {s : NewsState} {b : Bool} :
      handleBusyB s = false → s.ready = some b →
      NewsTaskStep s { s with
        handle := some s.nextId,
        live := (s.nextId, NewsTask.playingSlot b) :: s.live,
        nextId := s.nextId + 1 }
  | finishPlay {s : NewsState} {i : Nat} {p : Bool} :
      (i, NewsTask.playingSlot p) ∈ s.live →
      NewsTaskStep s { s with
        ready := none, handle := none, live := eraseId i s.live }

/-- All transitions of the news subsystem: the task-level transitions
above, plus the Enter-key preemption, which stops the player, clears
`_current_news_tts_result` and `_news_tts_generating` and nulls
`_background_task` (`core/app.py` lines 165-184 with 981-997) — but
stops none of the running threads, which live on. -/
inductive NewsStep : NewsState → NewsState → Prop where
  | task {s t : NewsState} : NewsTaskStep s t → NewsStep s t
  | reset {s : NewsState} :
      NewsStep s { s with ready := none, generating := false,
                          handle := none }

/-- News states reachable from `newsInit`. -/
inductive NewsReachable : NewsState → Prop where
  | init : NewsReachable newsInit
  | step {s t : NewsState} : NewsReachable s → NewsStep s t →
      NewsReachable t

/-- News states reachable from `newsInit` without any Enter-key
preemption. -/
inductive NewsQuietReachable : NewsState → Prop where
  | init : NewsQuietReachable newsInit
  | step {s t : NewsState} : NewsQuietReachable s → NewsTaskStep s t →
      NewsQuietReachable t

/-- The double-buffer invariant of a preemption-free news run: at most
one news thread is live, an in-flight TTS thread writes into the
alternate slot `1 - _news_tts_file_index`, an in-flight playback reads
the slot `_news_tts_file_index`, a pending `_current_news_tts_result`
lives in slot `_news_tts_file_index`, and the handle refers to the
live thread. -/
def newsQuietInvariant (s : NewsState) : Prop :=
  (∀ p ∈ s.live, ∀ q ∈ s.live, p = q) ∧
  (∀ i : Nat, ∀ w : Bool,
      (i, NewsTask.ttsWriting w) ∈ s.live → w = !s.fileIndex) ∧
  (∀ i : Nat, ∀ p : Bool,
      (i, NewsTask.playingSlot p) ∈ s.live → p = s.fileIndex) ∧
  (∀ b : Bool, s.ready = some b → b = s.fileIndex) ∧
  (∀ e ∈ s.live, s.handle = some e.1)

/-- The state the program reaches by this interleaving: news session 1
(index 0) spawns TTS thread 0, which captures target slot 1; the Enter
key abandons it; a new news session spawns TTS thread 1, which also
captures target slot `1 - 0 = 1`; orphan thread 0 then finishes —
writing slot 1, publishing it, setting `_news_tts_file_index = 1` and
nulling the handle (which referred to thread 1) — and the next tick,
seeing a pending result and a dead handle, spawns playback thread 2 on
slot 1 while TTS thread 1 is still live and about to write slot 1. -/
def newsClobberedState : NewsState :=
  { fileIndex := true, ready := some true, generating := false,
    handle := some 2,
    live := [(2, NewsTask.playingSlot true), (1, NewsTask.ttsWriting true)],
    nextId := 3 }

/-- State of one streaming-recognition cycle inside
`StreamingRecorder.record_and_transcribe` / `_process_google_responses`
(`io_audio/streaming_recorder.py`): `_recognition_started`,
`_streaming_active`, the text of `_final_result` when set, and
`_last_recognition_time`. -/
structure RecState where
  recognitionStarted : Bool
  streamingActive : Bool
  finalResult : Option String
  lastRecognitionTime : Option ℚ
deriving DecidableEq, Repr

/-- The state set up just before the send loop of
`record_and_transcribe` starts (`io_audio/streaming_recorder.py` lines
326-330). -/
def recInit : RecState :=
  { recognitionStarted := false, streamingActive := true,
    finalResult := none, lastRecognitionTime := none }

/-- The observable events of one recognition cycle, each tagged with
the wall-clock instant at which it runs:

* `audioTick now`: one iteration of the send loop of
  `record_and_transcribe` that dequeued an audio block at time `now`
  (lines 353-377);
* `response transcript isFinal now`: `_process_google_responses`
  handles one streaming response whose first alternative has the given
  transcript (lines 238-266). -/
inductive RecEvent where
  | audioTick (now : ℚ)
  | response (transcript : String) (isFinal : Bool) (now : ℚ)
deriving DecidableEq, Repr

/-- Python `str.strip()` on a transcript, as a `String`. -/
def pyStripStr (s : String) : String :=
  String.mk (pyStrip s.data)

/-- One step of the recognition cycle.  `startTime` is the
`start_time = time.time()` taken when streaming began.

An `audioTick` runs the body of the send loop: while streaming is
active and no non-empty transcript has been seen, a tick at
`now - startTime ≥ 5.0` (INITIAL_WAIT_DURATION) clears
`_streaming_active`; once recognition has started, a tick
`≥ 3.0` (NO_RECOGNITION_DURATION) after `_last_recognition_time`
clears it.  After `_streaming_active` is false the loop has exited and
ticks change nothing.

A `response` with a non-empty stripped transcript marks recognition as
started and refreshes `_last_recognition_time`; if it `is_final` it
also stores the final result and clears `_streaming_active`
immediately. -/
def recStep (startTime : ℚ) (s : RecState) : RecEvent → RecState
  | RecEvent.audioTick now =>
      if s.streamingActive = false then s
      else if s.recognitionStarted = false then
        if now - startTime ≥ 5 then { s with streamingActive := false } else s
      else
        match s.lastRecognitionTime with
        | some t =>
            if now - t ≥ 3 then { s with streamingActive := false } else s
        | none => s
  | RecEvent.response transcript isFinal now =>
      let tr := pyStripStr transcript
      if isFinal then
        if tr ≠ "" then
          { recognitionStarted := true, streamingActive := false,
            finalResult := some tr, lastRecognitionTime := some now }
        else s
      else
        if tr ≠ "" then
          { s with recognitionStarted := true,
                   lastRecognitionTime := some now }
        else s

/-- A whole cycle: fold the events of the cycle, in the order in which
the two threads interleave them, over the initial state. -/
def recRun (startTime : ℚ) (events : List RecEvent) : RecState :=
  events.foldl (recStep startTime) recInit

/-- The value `record_and_transcribe` returns once the loop has exited
(line 383): the final result if it exists and its text is non-empty,
otherwise `None`. -/
def recReturn (s : RecState) : Option String :=
  match s.finalResult with
  | some t => if t ≠ "" then some t else none
  | none => none

/-- Does a response event carry a non-empty (stripped) transcript? -/
def nonEmptyTranscript : RecEvent → Bool
  | RecEvent.response transcript _ _ => pyStripStr transcript ≠ ""
  | RecEvent.audioTick _ => false

/-- `ActionResult` as `NewsAction.execute` builds it
(`actions/news.py`): the reply text, `data["titles"]` and the success
flag. -/
structure ActionResult where
  reply_text : String
  titles : List String
  success : Bool
deriving DecidableEq, Repr

/-- The title texts of the `<item>` elements of the fetched BBC RSS
feed, in document order; `none` stands for an item whose `<title>`
element is missing or has no text.  The whole feed is `none` when the
HTTP request or the XML parsing raised.  (The texts are taken after
`html.unescape`, which never turns a non-empty title into an empty
one.) -/
def RssFeed : Type :=
  Option (List (Option String))

/-- The collection loop of `NewsAction._fetch_titles_from_bbc`
(`actions/news.py` lines 90-95): keep an item's title when the raw
text is non-empty and it is still non-empty after stripping. -/
def collectTitles : List (Option String) → List String
  | [] => []
  | none :: rest => collectTitles rest
  | some t :: rest =>
      if t = "" then collectTitles rest
      else
        let s := pyStripStr t
        if s = "" then collectTitles rest else s :: collectTitles rest

/-- `NewsAction._fetch_titles_from_bbc` (`actions/news.py`): on any
request/parse failure return `[]`; otherwise collect the titles of the
first `count` items. -/
def fetchTitlesFromBBC (feed : RssFeed) (count : Nat) : List String :=
  match feed with
  | none => []
  | some entries => collectTitles (entries.take count)

/-- `NewsAction.execute` (`actions/news.py`): the count is fixed to 10;
an empty title list is a failure with the canned apology, otherwise
success with the fetched titles. -/
def newsExecute (feed : RssFeed) : ActionResult :=
  let count := 10
  let titles := fetchTitlesFromBBC feed count
  if titles = [] then
    { reply_text :=
        "Sorry, I couldn't fetch the news at the moment. Please try again later.",
      titles := [],
      success := false }
  else
    { reply_text :=
        "I found " ++ toString titles.length ++ " news headlines for you.",
      titles := titles,
      success := true }

/-- The externally visible actions `AssistantApp._on_call_start`
(`core/app.py` lines 343-376) performs, in order. -/
inductive CallEvent where
  | setState (st : AppState)
  | stopRecorder
  | sleep100ms
  | checkAlive (alive : Bool)
  | setCallingUI
deriving DecidableEq, Repr

/-- The polling loop `for _ in range(10): time.sleep(0.1); if not
alive: break` of `_on_call_start`: `aliveAt i` tells whether the
background task is still alive at the `i`-th check. -/
def pollWait (aliveAt : Nat → Bool) (i : Nat) : Nat → List CallEvent
  | 0 => []
  | fuel + 1 =>
      CallEvent.sleep100ms :: CallEvent.checkAlive (aliveAt i) ::
        (if aliveAt i then pollWait aliveAt (i + 1) fuel else [])

/-- The action trace of `AssistantApp._on_call_start`: set the state to
`CALLING` first, stop the streaming recorder (the audio source), then
— if a background task is alive — poll for its exit up to 10 times at
100 ms, and finally switch the UI if the state is still `CALLING`. -/
def onCallStartTrace (taskAlive : Bool) (aliveAt : Nat → Bool)
    (stillCalling : Bool) : List CallEvent :=
  [CallEvent.setState AppState.CALLING, CallEvent.stopRecorder] ++
    (if taskAlive then pollWait aliveAt 0 10 else []) ++
    (if stillCalling then [CallEvent.setCallingUI] else [])

theorem assigned_subset_nine : ∀ t ∈ assignedStates, t ∈ specNineStates := by
  intro t ht
  simpa [assignedStates, specNineStates] using ht

/-- C4: the application holds exactly one current state at a time (it
is the single field `self.state`, written only by `core/app.py`), and
every value it can reach — the initial `IDLE` followed by any sequence
of the state assignments occurring in `core/app.py` — is one of the
nine values named by the specification.  (The source enumeration also
defines a tenth member `TRANSCRIBING`, but no assignment ever produces
it.) -/
theorem state_always_one_of_nine (s : AppState) (h : StateReachable s) :
    s ∈ specNineStates := by
  induction h with
  | init => simp [specNineStates]
  | assign _ hmem _ => exact assigned_subset_nine _ hmem

/-- Witness: the `NEWS` state is reachable (e.g. by the assignment at
`core/app.py` line 863) and the theorem places it among the nine. -/
theorem state_always_one_of_nine_witness : AppState.NEWS ∈ specNineStates :=
  state_always_one_of_nine AppState.NEWS
    (StateReachable.assign StateReachable.init (by simp [assignedStates]))

/-- C5 counterexample: at a native rate of 16000 Hz the Audio Sink
plays at `16000 * 0.7 = 11200` Hz, not at `16000 * 0.8 = 12800` Hz as
the claim states, and news-headline playback — which goes through the
same `AudioPlayer.play` — also runs at 11200 Hz, not at the native
rate. -/
theorem playback_rate_not_point_eight_cex :
    playbackRate 16000 ≠ 16000 * (8 / 10) ∧
    newsPlaybackRate 16000 ≠ 16000 := by
  constructor <;> norm_num [playbackRate, newsPlaybackRate]

/-- C5 amended: the Audio Sink (`AudioPlayer.play`) plays synthesized
replies at 0.7× the file's native sample rate; the Music Player's own
playback path runs at 0.8× native; news-headline playback goes through
the Audio Sink and therefore also plays at 0.7× native — slower than
the native rate, not at it. -/
theorem playback_rates (native : ℚ) (hpos : 0 < native) :
    playbackRate native = native * (7 / 10) ∧
    musicPlaybackRate native = native * (8 / 10) ∧
    newsPlaybackRate native = playbackRate native ∧
    newsPlaybackRate native < native := by
  refine ⟨rfl, rfl, rfl, ?_⟩
  unfold newsPlaybackRate playbackRate
  nlinarith

/-- Witness for the amended C5 at a 16 kHz file. -/
theorem playback_rates_witness :
    playbackRate 16000 = 16000 * (7 / 10) ∧
    musicPlaybackRate 16000 = 16000 * (8 / 10) ∧
    newsPlaybackRate 16000 = playbackRate 16000 ∧
    newsPlaybackRate 16000 < 16000 :=
  playback_rates 16000 (by norm_num)

/-- C10: the registry registers exactly the two actions `"weather"` and
`"news"` (in that order); `get_action` returns `none` for every other
name, in particular `"music"`; with an unregistered name the acting
handler answers `"Sorry, I don't understand this action"` and moves to
`SPEAKING`; consequently no intent can reach the orchestrator's music
branch through the registry. -/
theorem registry_two_actions_music_unreachable :
    defaultActions.map Prod.fst = ["weather", "news"] ∧
    getAction "music" = none ∧
    (∀ n : String, n ≠ "weather" → n ≠ "news" → getAction n = none) ∧
    (∀ i : Intent, i.action_name = some "music" →
        handleActing (some i) =
          (ActingResult.unknownAction "Sorry, I don't understand this action",
           AppState.SPEAKING)) ∧
    (∀ oi : Option Intent, (handleActing oi).1 ≠ ActingResult.musicBranch) := by
  refine ⟨rfl, rfl, ?_, ?_, ?_⟩
  · intro n h1 h2
    have h1' : ("weather" = n) = False := by simp [Ne.symm h1]
    have h2' : ("news" = n) = False := by simp [Ne.symm h2]
    simp [getAction, defaultActions, List.find?, h1', h2']
  · intro i hi
    simp [handleActing, hi]
    rfl
  · intro oi
    match oi with
    | none => simp [handleActing]
    | some i =>
        simp only [handleActing]
        rcases hname : i.action_name with _ | n
        · simp
        · rcases hact : getAction n with _ | act
          · simp [hact]
          · have hn : n ≠ "music" := by
              intro h
              rw [h] at hact
              simp [getAction, defaultActions, List.find?] at hact
            by_cases hnews : n = "news"
            · subst hnews
              simp [getAction, defaultActions, List.find?]
            · simp [hact, hn, hnews]

/-- Witness for C10: the intent the router would produce for a music
request is rejected by the registry and answered with the apology. -/
theorem registry_music_unreachable_witness :
    handleActing (some { intent_type := "predefined_action",
                         action_name := some "music" }) =
      (ActingResult.unknownAction "Sorry, I don't understand this action",
       AppState.SPEAKING) :=
  registry_two_actions_music_unreachable.2.2.2.1
    { intent_type := "predefined_action", action_name := some "music" } rfl

/-- C6 counterexample: `"what is AI"` matches no predefined-action
pattern, and when the LLM endpoint answers HTTP 500 `LLMClient.ask`
does not raise — it returns normally — so the chat intent carries
`"Error: Could not parse AI response."`, not the claimed fallback
`"Sorry, I don't understand your meaning."`. -/
theorem llm_http_500_reply_cex :
    (thinkingTask "what is AI"
        (AskOutcome.reply { status_code := 500, content := none })).1.reply_text
        = "Error: Could not parse AI response." ∧
    (thinkingTask "what is AI"
        (AskOutcome.reply { status_code := 500, content := none })).1.reply_text
        ≠ "Sorry, I don't understand your meaning." := by
  constructor
  · rfl
  · intro h
    rw [show (thinkingTask "what is AI"
        (AskOutcome.reply { status_code := 500, content := none })).1.reply_text
        = "Error: Could not parse AI response." from rfl] at h
    simp at h

/-- C6 amended: for an utterance matching no predefined-action pattern,
the fixed fallback `"Sorry, I don't understand your meaning."` is used
exactly when the chat client call raises an exception; when the LLM
endpoint answers with a non-200 status (such as HTTP 500) the call
returns normally and the reply is `"Error: Could not parse AI
response."` instead. -/
theorem llm_failure_fallback_reply (t : String) (h : recognize t = none) :
    (thinkingTask t AskOutcome.raised).1.reply_text =
        "Sorry, I don't understand your meaning." ∧
    (thinkingTask t AskOutcome.raised).1.intent_type = "chat" ∧
    ∀ r : HttpReply, r.status_code ≠ 200 →
      (thinkingTask t (AskOutcome.reply r)).1.reply_text =
        "Error: Could not parse AI response." := by
  refine ⟨?_, ?_, ?_⟩
  · simp [thinkingTask, h]
  · simp [thinkingTask, h]
  · intro r hr
    simp [thinkingTask, h, llmAsk, hr]

/-- Witness for the amended C6 at `"what is AI"` and HTTP 500. -/
theorem llm_failure_fallback_reply_witness :
    (thinkingTask "what is AI" AskOutcome.raised).1.reply_text =
        "Sorry, I don't understand your meaning." ∧
    (thinkingTask "what is AI" AskOutcome.raised).1.intent_type = "chat" ∧
    ∀ r : HttpReply, r.status_code ≠ 200 →
      (thinkingTask "what is AI" (AskOutcome.reply r)).1.reply_text =
        "Error: Could not parse AI response." :=
  llm_failure_fallback_reply "what is AI" rfl

/-- C3: as soon as `_process_google_responses` sees an `is_final`
result with a non-empty transcript, it stores that transcript as the
final `ASRResult` and clears `_streaming_active` at once — for every
prior cycle state, in particular whatever `_last_recognition_time` is,
so no 3.0-second trailing-silence window is involved — and every later
iteration of the send loop leaves the exited state unchanged. -/
theorem early_final_stops_streaming (startTime : ℚ) (s : RecState)
    (tr : String) (now : ℚ) (h : pyStripStr tr ≠ "") :
    recStep startTime s (RecEvent.response tr true now) =
      { recognitionStarted := true, streamingActive := false,
        finalResult := some (pyStripStr tr),
        lastRecognitionTime := some now } ∧
    ∀ later : ℚ,
      recStep startTime
        { recognitionStarted := true, streamingActive := false,
          finalResult := some (pyStripStr tr),
          lastRecognitionTime := some now }
        (RecEvent.audioTick later) =
      { recognitionStarted := true, streamingActive := false,
        finalResult := some (pyStripStr tr),
        lastRecognitionTime := some now } := by
  constructor
  · simp [recStep, h]
  · intro later
    simp [recStep]

/-- Witness for C3: the final transcript `"hello world"` at `t = 1`
stops a cycle that started at `t = 0` even though interim content had
been seen `0.1 s` earlier (far inside the 3.0 s window). -/
theorem early_final_stops_streaming_witness :
    recStep 0
        { recognitionStarted := true, streamingActive := true,
          finalResult := none, lastRecognitionTime := some (9 / 10) }
        (RecEvent.response "hello world" true 1) =
      { recognitionStarted := true, streamingActive := false,
        finalResult := some (pyStripStr "hello world"),
        lastRecognitionTime := some 1 } :=
  (early_final_stops_streaming 0
      { recognitionStarted := true, streamingActive := true,
        finalResult := none, lastRecognitionTime := some (9 / 10) }
      "hello world" 1 (by decide)).1

theorem pollWait_sleep_count (aliveAt : Nat → Bool) :
    ∀ fuel i, (pollWait aliveAt i fuel).countP
        (fun e => decide (e = CallEvent.sleep100ms)) ≤ fuel := by
  intro fuel
  induction fuel with
  | zero => intro i; simp [pollWait]
  | succ n ih =>
      intro i
      by_cases h : aliveAt i
      · simp only [pollWait, h, if_true, List.countP_cons]
        have := ih (i + 1)
        simp
        omega
      · simp [pollWait, h]

/-- C8: whatever the liveness of the background wake/recognition task,
`_on_call_start` first sets the state to `Calling`, only then stops the
audio source (the streaming recorder), and afterwards waits for the
task by sleeping 100 ms at a time at most 10 times (at most 1 second);
in particular the state is already `Calling` before the audio source is
stopped. -/
theorem call_start_order_and_bound (taskAlive : Bool) (aliveAt : Nat → Bool)
    (stillCalling : Bool) :
    (onCallStartTrace taskAlive aliveAt stillCalling).take 2 =
      [CallEvent.setState AppState.CALLING, CallEvent.stopRecorder] ∧
    (onCallStartTrace taskAlive aliveAt stillCalling).countP
        (fun e => decide (e = CallEvent.sleep100ms)) ≤ 10 ∧
    (onCallStartTrace taskAlive aliveAt stillCalling).head? =
      some (CallEvent.setState AppState.CALLING) := by
  refine ⟨rfl, ?_, rfl⟩
  simp only [onCallStartTrace, List.countP_append, List.countP_cons,
    List.countP_nil]
  have h1 : (if taskAlive then pollWait aliveAt 0 10 else []).countP
      (fun e => decide (e = CallEvent.sleep100ms)) ≤ 10 := by
    by_cases h : taskAlive
    · simpa [h] using pollWait_sleep_count aliveAt 10 0
    · simp [h]
  have h2 : (if stillCalling then [CallEvent.setCallingUI] else []).countP
      (fun e => decide (e = CallEvent.sleep100ms)) ≤ 0 := by
    by_cases h : stillCalling <;> simp [h]
  simp
  omega

theorem collectTitles_length_le (l : List (Option String)) :
    (collectTitles l).length ≤ l.length := by
  induction l with
  | nil => simp [collectTitles]
  | cons hd tl ih =>
      cases hd with
      | none => simpa [collectTitles] using Nat.le_succ_of_le ih
      | some t =>
          by_cases h1 : t = ""
          · simpa [collectTitles, h1] using Nat.le_succ_of_le ih
          · by_cases h2 : pyStripStr t = ""
            · simpa [collectTitles, h1, h2] using Nat.le_succ_of_le ih
            · simpa [collectTitles, h1, h2] using ih

theorem collectTitles_length_of_valid (l : List (Option String))
    (h : ∀ e ∈ l, ∃ t, e = some t ∧ t ≠ "" ∧ pyStripStr t ≠ "") :
    (collectTitles l).length = l.length := by
  induction l with
  | nil => simp [collectTitles]
  | cons hd tl ih =>
      obtain ⟨t, het, ht1, ht2⟩ := h hd (by simp)
      subst het
      have : (collectTitles tl).length = tl.length :=
        ih (fun e he => h e (by simp [he]))
      simp [collectTitles, ht1, ht2, this]

/-- C9 counterexample: a fetch whose parsed feed carries only three
valid titles yields a successful `ActionResult` whose `data.titles` has
length 3, not 10. -/
theorem news_titles_not_always_ten_cex :
    (newsExecute (some [some "a", some "b", some "c"])).success = true ∧
    (newsExecute (some [some "a", some "b", some "c"])).titles.length ≠ 10 := by
  constructor
  · rfl
  · intro h
    rw [show (newsExecute (some [some "a", some "b", some "c"])).titles.length
        = 3 from rfl] at h
    simp at h

/-- C9 amended: a successful execution of the news action returns
between 1 and 10 headline strings — at most the first 10 items of the
feed, in feed order — and exactly 10 of them whenever the feed has at
least 10 items and each of its first 10 items carries a non-empty
title. -/
theorem news_titles_bounded (feed : RssFeed)
    (h : (newsExecute feed).success = true) :
    1 ≤ (newsExecute feed).titles.length ∧
    (newsExecute feed).titles.length ≤ 10 ∧
    (∀ entries : List (Option String), feed = some entries →
      10 ≤ entries.length →
      (∀ e ∈ entries.take 10, ∃ t, e = some t ∧ t ≠ "" ∧ pyStripStr t ≠ "") →
      (newsExecute feed).titles.length = 10) := by
  have hne : fetchTitlesFromBBC feed 10 ≠ [] := by
    intro hnil
    simp [newsExecute, hnil] at h
  have hbody : newsExecute feed =
      { reply_text := "I found " ++ toString (fetchTitlesFromBBC feed 10).length
          ++ " news headlines for you.",
        titles := fetchTitlesFromBBC feed 10,
        success := true } := by
    simp [newsExecute, hne]
  refine ⟨?_, ?_, ?_⟩
  · rw [hbody]
    show 1 ≤ (fetchTitlesFromBBC feed 10).length
    have := List.length_pos.mpr hne
    omega
  · rw [hbody]
    cases feed with
    | none => simp [fetchTitlesFromBBC]
    | some entries =>
        calc (fetchTitlesFromBBC (some entries) 10).length
            ≤ (entries.take 10).length :=
              collectTitles_length_le (entries.take 10)
          _ ≤ 10 := by simp [List.length_take]
  · intro entries hfeed hlen hvalid
    subst hfeed
    rw [hbody]
    have : (collectTitles (entries.take 10)).length =
        (entries.take 10).length :=
      collectTitles_length_of_valid (entries.take 10) hvalid
    show (collectTitles (entries.take 10)).length = 10
    rw [this, List.length_take]
    omega

/-- Witness for the amended C9 at a feed with exactly 10 one-letter
titles. -/
theorem news_titles_bounded_witness :
    1 ≤ (newsExecute (some [some "a", some "b", some "c", some "d",
      some "e", some "f", some "g", some "h", some "i", some "j"])).titles.length ∧
    (newsExecute (some [some "a", some "b", some "c", some "d",
      some "e", some "f", some "g", some "h", some "i", some "j"])).titles.length ≤ 10 ∧
    (∀ entries : List (Option String),
      (some [some "a", some "b", some "c", some "d", some "e", some "f",
        some "g", some "h", some "i", some "j"] : RssFeed) = some entries →
      10 ≤ entries.length →
      (∀ e ∈ entries.take 10, ∃ t, e = some t ∧ t ≠ "" ∧ pyStripStr t ≠ "") →
      (newsExecute (some [some "a", some "b", some "c", some "d", some "e",
        some "f", some "g", some "h", some "i", some "j"])).titles.length = 10) :=
  news_titles_bounded
    (some [some "a", some "b", some "c", some "d", some "e", some "f",
      some "g", some "h", some "i", some "j"]) rfl

theorem handleBusy_of_mem {s : NewsState} {e : Nat × NewsTask}
    (he : e ∈ s.live) (hh : s.handle = some e.1) : handleBusyB s = true := by
  simp only [handleBusyB, hh]
  rw [List.any_eq_true]
  exact ⟨e, he, by simp⟩

theorem live_nil_of_not_busy {s : NewsState}
    (h5 : ∀ e ∈ s.live, s.handle = some e.1)
    (hb : handleBusyB s = false) : s.live = [] := by
  cases hl : s.live with
  | nil => rfl
  | cons e tl =>
      have hmem : e ∈ s.live := by rw [hl]; simp
      have := handleBusy_of_mem hmem (h5 e hmem)
      simp [this] at hb

theorem eraseId_of_uniq {l : List (Nat × NewsTask)} {i : Nat} {t : NewsTask}
    (huniq : ∀ p ∈ l, ∀ q ∈ l, p = q) (hm : (i, t) ∈ l) :
    eraseId i l = [] := by
  rw [eraseId, List.filter_eq_nil_iff]
  intro a ha
  have : a = (i, t) := huniq a ha (i, t) hm
  simp [this]

theorem newsQuietInvariant_init : newsQuietInvariant newsInit := by
  refine ⟨?_, ?_, ?_, ?_, ?_⟩
  · intro p hp
    simp [newsInit] at hp
  · intro i w hm
    simp [newsInit] at hm
  · intro i p hm
    simp [newsInit] at hm
  · intro b hb
    simp [newsInit] at hb
  · intro e he
    simp [newsInit] at he

theorem newsQuietInvariant_step {s t : NewsState}
    (inv : newsQuietInvariant s) (st : NewsTaskStep s t) :
    newsQuietInvariant t := by
  obtain ⟨h1, h2, h3, h4, h5⟩ := inv
  cases st with
  | spawnTTS hb hr hg =>
      have hnil : s.live = [] := live_nil_of_not_busy h5 hb
      refine ⟨?_, ?_, ?_, ?_, ?_⟩
      · intro p hp q hq
        simp [hnil] at hp hq
        rw [hp, hq]
      · intro i w hm
        simp [hnil] at hm
        simp [hm.2]
      · intro i p hm
        simp [hnil] at hm
      · intro b hbr
        exact absurd (h4 b hbr) (by simp [hr] at hbr)
      · intro e he
        simp [hnil] at he
        simp [he]
  | markGenerating hb hr hg =>
      exact ⟨h1, h2, h3, h4, h5⟩
  | finishTTS hm =>
      have hnil : eraseId _ s.live = [] := eraseId_of_uniq h1 hm
      refine ⟨?_, ?_, ?_, ?_, ?_⟩
      · intro p hp
        simp [hnil] at hp
      · intro i w hw
        simp [hnil] at hw
      · intro i p hp
        simp [hnil] at hp
      · intro b hbr
        simp at hbr
        simp [hbr]
      · intro e he
        simp [hnil] at he
  | finishTTSFail hm =>
      have hnil : eraseId _ s.live = [] := eraseId_of_uniq h1 hm
      refine ⟨?_, ?_, ?_, ?_, ?_⟩
      · intro p hp
        simp [hnil] at hp
      · intro i w hw
        simp [hnil] at hw
      · intro i p hp
        simp [hnil] at hp
      · intro b hbr
        simp at hbr
        exact h4 b hbr
      · intro e he
        simp [hnil] at he
  | finishTTSMissing hm =>
      have hnil : eraseId _ s.live = [] := eraseId_of_uniq h1 hm
      refine ⟨?_, ?_, ?_, ?_, ?_⟩
      · intro p hp
        simp [hnil] at hp
      · intro i w hw
        simp [hnil] at hw
      · intro i p hp
        simp [hnil] at hp
      · intro b hbr
        simp at hbr
        exact h4 b hbr
      · intro e he
        simp [hnil] at he
  | spawnPlay hb hr =>
      have hnil : s.live = [] := live_nil_of_not_busy h5 hb
      refine ⟨?_, ?_, ?_, ?_, ?_⟩
      · intro p hp q hq
        simp [hnil] at hp hq
        rw [hp, hq]
      · intro i w hm
        simp [hnil] at hm
      · intro i p hm
        simp [hnil] at hm
        rw [hm.2]
        exact h4 _ hr
      · intro b hbr
        simp at hbr
        exact h4 b hbr
      · intro e he
        simp [hnil] at he
        simp [he]
  | finishPlay hm =>
      have hnil : eraseId _ s.live = [] := eraseId_of_uniq h1 hm
      refine ⟨?_, ?_, ?_, ?_, ?_⟩
      · intro p hp
        simp [hnil] at hp
      · intro i w hw
        simp [hnil] at hw
      · intro i p hp
        simp [hnil] at hp
      · intro b hbr
        simp at hbr
      · intro e he
        simp [hnil] at he

theorem newsQuietInvariant_reachable {s : NewsState}
    (h : NewsQuietReachable s) : newsQuietInvariant s := by
  induction h with
  | init => exact newsQuietInvariant_init
  | step _ st ih => exact newsQuietInvariant_step ih st

/-- C1 counterexample: the claimed invariant fails on the program.
After an Enter-key preemption of a news session and a restarted news
session, the state `newsClobberedState` is reachable: a playback of
slot 1 is in flight while a live TTS thread is still writing slot 1 —
the played slot equals the written slot — and that TTS thread's target
slot 1 equals `_news_tts_file_index` (by then also 1) rather than
`1 - _news_tts_file_index`.  The Enter-key stop only nulls
`_background_task` without stopping the thread, and the orphan's
completion (`core/app.py` lines 808-813) flips the index, republishes
the result and frees the handle while the second thread still runs. -/
theorem news_double_buffer_cex :
    NewsReachable newsClobberedState ∧
    (2, NewsTask.playingSlot true) ∈ newsClobberedState.live ∧
    (1, NewsTask.ttsWriting true) ∈ newsClobberedState.live ∧
    newsClobberedState.fileIndex = true := by
  refine ⟨?_, by simp [newsClobberedState], by simp [newsClobberedState], rfl⟩
  have r1 : NewsReachable
      { fileIndex := false, ready := none, generating := true,
        handle := some 0, live := [(0, NewsTask.ttsWriting true)],
        nextId := 1 } :=
    NewsReachable.step NewsReachable.init
      (NewsStep.task (NewsTaskStep.spawnTTS rfl rfl rfl))
  have r2 : NewsReachable
      { fileIndex := false, ready := none, generating := false,
        handle := none, live := [(0, NewsTask.ttsWriting true)],
        nextId := 1 } :=
    NewsReachable.step r1 NewsStep.reset
  have r3 : NewsReachable
      { fileIndex := false, ready := none, generating := true,
        handle := some 1,
        live := [(1, NewsTask.ttsWriting true), (0, NewsTask.ttsWriting true)],
        nextId := 2 } :=
    NewsReachable.step r2
      (NewsStep.task (NewsTaskStep.spawnTTS rfl rfl rfl))
  have r4 : NewsReachable
      { fileIndex := true, ready := some true, generating := false,
        handle := none, live := [(1, NewsTask.ttsWriting true)],
        nextId := 2 } :=
    NewsReachable.step r3
      (NewsStep.task (NewsTaskStep.finishTTS (i := 0) (w := true) (by simp)))
  exact NewsReachable.step r4
    (NewsStep.task (NewsTaskStep.spawnPlay rfl rfl))

/-- C1 amended: in every state of the news subsystem reachable without
an Enter-key preemption, at most one news task is in flight (so at most
one slot is being played and at most one is being written), an
in-flight TTS task writes into slot `1 - _news_tts_file_index`, an
in-flight playback reads the slot `_news_tts_file_index`, and a played
slot is never simultaneously a written slot.  An Enter-key preemption
orphans the in-flight thread without stopping it, and once a new news
session overlaps the orphan the invariant can fail, as the
counterexample shows. -/
theorem news_double_buffer_quiet (s : NewsState)
    (h : NewsQuietReachable s) :
    (∀ p ∈ s.live, ∀ q ∈ s.live, p = q) ∧
    (∀ i : Nat, ∀ w : Bool,
        (i, NewsTask.ttsWriting w) ∈ s.live → w = !s.fileIndex) ∧
    (∀ i : Nat, ∀ p : Bool,
        (i, NewsTask.playingSlot p) ∈ s.live → p = s.fileIndex) ∧
    (∀ i j : Nat, ∀ w p : Bool,
        (i, NewsTask.ttsWriting w) ∈ s.live →
        (j, NewsTask.playingSlot p) ∈ s.live → False) := by
  obtain ⟨h1, h2, h3, _, _⟩ := newsQuietInvariant_reachable h
  refine ⟨h1, h2, h3, ?_⟩
  intro i j w p hw hp
  have := h1 _ hw _ hp
  simp at this

/-- Witness for the amended C1: after the first TTS task of an
unpreempted news cycle is spawned (slot index still 0), the task
writes into slot 1 = `1 - 0`. -/
theorem news_double_buffer_quiet_witness : (true : Bool) = !false :=
  (news_double_buffer_quiet
      { fileIndex := false, ready := none, generating := true,
        handle := some 0, live := [(0, NewsTask.ttsWriting true)],
        nextId := 1 }
      (NewsQuietReachable.step NewsQuietReachable.init
        (NewsTaskStep.spawnTTS rfl rfl rfl))).2.1 0 true (by simp)

/-- C7: for every non-empty input text the router matches the
registered regex list in order against the lowercased (and stripped)
text; a match produces the predefined intent for that action (name
`"news"`, confidence 0.9) — in particular for `"show me the news"` —
and when nothing matches the router yields no intent, so the thinking
task hands the text to the chat client and wraps the reply in a chat
intent of confidence 0.5 heading to `CHATTING` — in particular for
`"what is AI"`. -/
theorem intent_router_first_match :
    (∀ t : String, t ≠ "" →
      ((newsPatterns.any
            (fun p => searchFrom p none (pyStrip (pyLower t.data))) = true →
          recognize t = some (createIntent "news" t) ∧
          (createIntent "news" t).intent_type = "predefined_action" ∧
          (createIntent "news" t).action_name = some "news" ∧
          (createIntent "news" t).confidence = 9 / 10) ∧
       (newsPatterns.any
            (fun p => searchFrom p none (pyStrip (pyLower t.data))) = false →
          recognize t = none ∧
          ∀ ask : AskOutcome,
            (thinkingTask t ask).1.intent_type = "chat" ∧
            (thinkingTask t ask).1.confidence = 1 / 2 ∧
            (thinkingTask t ask).2 = AppState.CHATTING))) ∧
    recognize "show me the news" = some (createIntent "news" "show me the news") ∧
    (createIntent "news" "show me the news").action_name = some "news" ∧
    recognize "what is AI" = none := by
  refine ⟨?_, rfl, rfl, rfl⟩
  intro t ht
  constructor
  · intro hany
    have hex : ∃ p ∈ newsPatterns,
        searchFrom p none (pyStrip (pyLower t.data)) = true := by
      simpa using List.any_eq_true.mp hany
    rcases hfs : newsPatterns.find?
        (fun p => searchFrom p none (pyStrip (pyLower t.data))) with _ | p
    · rw [List.find?_eq_none] at hfs
      obtain ⟨p, hp, hsearch⟩ := hex
      exact absurd hsearch (by simpa using hfs p hp)
    · exact ⟨by simp [recognize, ht, hfs], rfl, rfl, rfl⟩
  · intro hany
    have hfind : newsPatterns.find?
        (fun p => searchFrom p none (pyStrip (pyLower t.data))) = none := by
      rw [List.find?_eq_none]
      intro p hp
      have := List.any_eq_false.mp hany p hp
      simpa using this
    have hrec : recognize t = none := by
      simp [recognize, ht, hfind]
    refine ⟨hrec, ?_⟩
    intro ask
    cases ask with
    | reply r => exact ⟨by simp [thinkingTask, hrec], by simp [thinkingTask, hrec], by simp [thinkingTask, hrec]⟩
    | raised => exact ⟨by simp [thinkingTask, hrec], by simp [thinkingTask, hrec], by simp [thinkingTask, hrec]⟩

/-- Witness for C7 at the two sample utterances of the claim. -/
theorem intent_router_first_match_witness :
    (recognize "show me the news" = some (createIntent "news" "show me the news") ∧
     (createIntent "news" "show me the news").intent_type = "predefined_action" ∧
     (createIntent "news" "show me the news").action_name = some "news" ∧
     (createIntent "news" "show me the news").confidence = 9 / 10) ∧
    (recognize "what is AI" = none ∧
     ∀ ask : AskOutcome,
       (thinkingTask "what is AI" ask).1.intent_type = "chat" ∧
       (thinkingTask "what is AI" ask).1.confidence = 1 / 2 ∧
       (thinkingTask "what is AI" ask).2 = AppState.CHATTING) :=
  ⟨(intent_router_first_match.1 "show me the news" (by decide)).1 (by decide),
   (intent_router_first_match.1 "what is AI" (by decide)).2 (by decide)⟩

theorem recStep_no_transcript (startTime : ℚ) (s : RecState) (e : RecEvent)
    (he : nonEmptyTranscript e = false)
    (h1 : s.recognitionStarted = false) (h2 : s.finalResult = none) :
    (recStep startTime s e).recognitionStarted = false ∧
    (recStep startTime s e).finalResult = none := by
  cases e with
  | audioTick now =>
      simp only [recStep]
      by_cases ha : s.streamingActive = false
      · simp [ha, h1, h2]
      · simp only [ha, if_false, h1, if_true]
        by_cases hge : now - startTime ≥ 5 <;> simp [hge, h1, h2]
  | response tr fin now =>
      have htr : pyStripStr tr = "" := by
        simpa [nonEmptyTranscript] using he
      cases fin <;> simp [recStep, htr, h1, h2]

theorem recStep_inactive (startTime : ℚ) (s : RecState) (e : RecEvent)
    (h : s.streamingActive = false) :
    (recStep startTime s e).streamingActive = false := by
  cases e with
  | audioTick now => simp [recStep, h]
  | response tr fin now =>
      by_cases htr : pyStripStr tr = "" <;>
        cases fin <;> simp [recStep, htr, h]

theorem recFoldl_no_transcript (startTime : ℚ) (evs : List RecEvent) :
    ∀ s : RecState, (∀ e ∈ evs, nonEmptyTranscript e = false) →
      s.recognitionStarted = false → s.finalResult = none →
      (evs.foldl (recStep startTime) s).recognitionStarted = false ∧
      (evs.foldl (recStep startTime) s).finalResult = none := by
  induction evs with
  | nil => intro s _ h1 h2; exact ⟨h1, h2⟩
  | cons e tl ih =>
      intro s hall h1 h2
      have he := hall e (by simp)
      have hstep := recStep_no_transcript startTime s e he h1 h2
      simpa using ih (recStep startTime s e)
        (fun x hx => hall x (by simp [hx])) hstep.1 hstep.2

theorem recFoldl_inactive (startTime : ℚ) (evs : List RecEvent) :
    ∀ s : RecState, s.streamingActive = false →
      (evs.foldl (recStep startTime) s).streamingActive = false := by
  induction evs with
  | nil => intro s h; exact h
  | cons e tl ih =>
      intro s h
      simpa using ih (recStep startTime s e) (recStep_inactive startTime s e h)

/-- C2 counterexample: streaming starts at `t = 0`; no transcript at
all is observed within 5.0 s (the first, interim, transcript arrives
at `t = 5.2`), yet the cycle neither stops at the 5-second mark nor
returns an empty result: the loop iteration at `t = 4.9` sees
`elapsed < 5`, the next iteration at `t = 5.3` finds recognition
already started, and the cycle ends by returning the final transcript
`"hi there"` instead of `None`. -/
theorem initial_wait_late_transcript_cex :
    (∀ e ∈ [RecEvent.audioTick (49 / 10),
            RecEvent.response "hi" false (26 / 5),
            RecEvent.audioTick (53 / 10),
            RecEvent.response "hi there" true (27 / 5)],
       ∀ tr fin now, e = RecEvent.response tr fin now →
         pyStripStr tr ≠ "" → (5 : ℚ) < now) ∧
    recReturn (recRun 0 [RecEvent.audioTick (49 / 10),
            RecEvent.response "hi" false (26 / 5),
            RecEvent.audioTick (53 / 10),
            RecEvent.response "hi there" true (27 / 5)]) = some "hi there" := by
  constructor
  · intro e he tr fin now heq htr
    fin_cases he <;> simp_all
    · rw [← heq.2.2]
      norm_num
    · rw [← heq.2.2]
      norm_num
  · have s1 : recStep 0 recInit (RecEvent.audioTick (49 / 10)) = recInit := by
      simp [recStep, recInit]
      norm_num
    have s2 : recStep 0 recInit (RecEvent.response "hi" false (26 / 5)) =
        { recognitionStarted := true, streamingActive := true,
          finalResult := none, lastRecognitionTime := some (26 / 5) } := by
      have : pyStripStr "hi" = "hi" := rfl
      simp [recStep, recInit, this]
    have s3 : recStep 0
        { recognitionStarted := true, streamingActive := true,
          finalResult := none, lastRecognitionTime := some (26 / 5) }
        (RecEvent.audioTick (53 / 10)) =
        { recognitionStarted := true, streamingActive := true,
          finalResult := none, lastRecognitionTime := some (26 / 5) } := by
      simp [recStep]
      norm_num
    have s4 : recStep 0
        { recognitionStarted := true, streamingActive := true,
          finalResult := none, lastRecognitionTime := some (26 / 5) }
        (RecEvent.response "hi there" true (27 / 5)) =
        { recognitionStarted := true, streamingActive := false,
          finalResult := some "hi there",
          lastRecognitionTime := some (27 / 5) } := by
      have : pyStripStr "hi there" = "hi there" := rfl
      simp [recStep, this]
    show recReturn (List.foldl (recStep 0) recInit _) = some "hi there"
    rw [List.foldl_cons, s1, List.foldl_cons, s2, List.foldl_cons, s3,
      List.foldl_cons, s4, List.foldl_nil]
    simp [recReturn]

/-- C2 amended: the initial-wait timeout is checked at the granularity
of dequeued audio blocks: if no interim or final transcript with
non-empty text is observed at any point of the cycle, then as soon as
the send loop dequeues an audio block 5.0 s or more after streaming
began, it stops streaming, and `record_and_transcribe` returns an
empty result (`None`).  (A transcript arriving after the 5.0-second
mark but before that loop iteration is still accepted, as the
counterexample shows.) -/
theorem initial_wait_timeout_returns_none (startTime : ℚ)
    (events : List RecEvent)
    (hno : ∀ e ∈ events, nonEmptyTranscript e = false)
    (htick : ∃ now : ℚ, RecEvent.audioTick now ∈ events ∧
        startTime + 5 ≤ now) :
    (recRun startTime events).streamingActive = false ∧
    recReturn (recRun startTime events) = none := by
  obtain ⟨now, hmem, hge⟩ := htick
  obtain ⟨l1, l2, rfl⟩ := List.append_of_mem hmem
  have hno1 : ∀ e ∈ l1, nonEmptyTranscript e = false := by
    intro e he; exact hno e (by simp [he])
  have hno2 : ∀ e ∈ l2, nonEmptyTranscript e = false := by
    intro e he; exact hno e (by simp [he])
  have hP1 := recFoldl_no_transcript startTime l1 recInit hno1 rfl rfl
  set s1 := l1.foldl (recStep startTime) recInit with hs1
  have hs2active :
      (recStep startTime s1 (RecEvent.audioTick now)).streamingActive
        = false := by
    by_cases ha : s1.streamingActive = false
    · exact recStep_inactive startTime s1 _ ha
    · have hge' : now - startTime ≥ 5 := by linarith
      simp [recStep, ha, hP1.1, hge']
  have hs2P := recStep_no_transcript startTime s1 (RecEvent.audioTick now)
    rfl hP1.1 hP1.2
  have hrun : recRun startTime (l1 ++ RecEvent.audioTick now :: l2) =
      l2.foldl (recStep startTime)
        (recStep startTime s1 (RecEvent.audioTick now)) := by
    simp [recRun, List.foldl_append, hs1]
  rw [hrun]
  refine ⟨recFoldl_inactive startTime l2 _ hs2active, ?_⟩
  have hfinal := recFoldl_no_transcript startTime l2 _ hno2 hs2P.1 hs2P.2
  simp [recReturn, hfinal.2]

/-- Witness for the amended C2: a silent cycle started at `t = 0`
whose loop dequeues a block at `t = 6`. -/
theorem initial_wait_timeout_returns_none_witness :
    (recRun 0 [RecEvent.audioTick 6]).streamingActive = false ∧
    recReturn (recRun 0 [RecEvent.audioTick 6]) = none :=
  initial_wait_timeout_returns_none 0 [RecEvent.audioTick 6]
    (by intro e he; simp at he; subst he; rfl)
    ⟨6, by simp, by norm_num⟩
